import Mathlib

/-
Verification development for the JSON-canvas to HTML converter
(src/json_canvas_converter.py).  The Python class CanvasConverter is embedded
shallowly: filesystem access becomes an explicit record of query functions,
stderr prints become explicit lists of messages, and the generated HTML
document is represented by its variable parts (the fixed style/viewer shell
that the source splices them into is emitted verbatim and carries no data).
The embedded JavaScript viewer functions (getConnectionPoint,
generateEdgePath) are modelled over the real numbers, idealising JS float
arithmetic.
-/

namespace CanvasConverter

/-- Abstract view of the filesystem as the converter queries it:
`pathExists p` models `Path(p).exists()`, `rglobFirst dir pat` models taking
the first element of `Path(dir).rglob(pat)` (none when the generator is
empty), and `read p` models `open(p,'rb').read()` returning the file's bytes,
none when opening or reading raises. -/
structure FS where
  pathExists : String → Bool
  rglobFirst : String → String → Option String
  read : String → Option (List Nat)

/-- The converter's configuration: `canvas_dir` is the directory containing
the input document (`canvas_path.parent`), `root_dir` the optional root
directory from the command line. -/
structure Config where
  canvas_dir : String
  root_dir : Option String
  deriving DecidableEq

/-- Path.is_absolute() for POSIX paths: the path starts with a slash. -/
def isAbsolute (p : String) : Bool :=
  match p.toList with
  | [] => false
  | c :: _ => c = '/'

/-- Splitting a character list on a separator character. -/
def splitOnChar (sep : Char) : List Char → List (List Char)
  | [] => [[]]
  | c :: rest =>
    let r := splitOnChar sep rest
    if c = sep then [] :: r
    else
      match r with
      | [] => [[c]]
      | g :: gs => (c :: g) :: gs

/-- Path(p).name: the final nonempty component of the path, empty for the
root.  Paths are modelled as raw strings. -/
def basename (p : String) : String :=
  String.mk ((((splitOnChar '/' p.toList).filter (fun s => s ≠ [])).getLast?).getD [])

/-- The pathlib `/` operator on strings: joining with an absolute right-hand
side discards the left-hand side, as `Path.__truediv__` does. -/
def joinPath (d f : String) : String := if isAbsolute f then f else d ++ "/" ++ f

/-- Path(p).suffix: the extension of the final component, beginning at its
last dot; empty when the last dot is the first character of the name (hidden
files) or its last character, as in pathlib. -/
def pathSuffix (p : String) : String :=
  let nm := basename p
  let cs := nm.toList
  match ((List.range cs.length).filter (fun i => cs.getD i ' ' = '.')).getLast? with
  | none => ""
  | some i => if 0 < i ∧ i + 1 < cs.length then String.mk (cs.drop i) else ""

/-- CanvasConverter.resolve_file_path (src/json_canvas_converter.py lines
50-88), transcribed block for block.  The two Option-valued lets encode the
two `if self.root_dir:` blocks whose inner returns short-circuit and whose
fall-through continues with the canvas-directory checks. -/
def resolve_file_path (fs : FS) (canvas_dir : String) (root_dir : Option String)
    (file_path : String) : Option String :=
  if isAbsolute file_path && fs.pathExists file_path then some file_path
  else
    let step2 : Option String :=
      match root_dir with
      | some rd =>
        let relative_to_root := joinPath rd file_path
        if fs.pathExists relative_to_root then some relative_to_root else none
      | none => none
    match step2 with
    | some p => some p
    | none =>
      let relative := joinPath canvas_dir file_path
      if fs.pathExists relative then some relative
      else
        let bn := basename file_path
        let step45 : Option String :=
          match root_dir with
          | some rd =>
            let in_root_dir := joinPath rd bn
            if fs.pathExists in_root_dir then some in_root_dir
            else fs.rglobFirst rd bn
          | none => none
        match step45 with
        | some p => some p
        | none =>
          let in_canvas_dir := joinPath canvas_dir bn
          if fs.pathExists in_canvas_dir then some in_canvas_dir
          else fs.rglobFirst canvas_dir bn

/-- Strategy 1 of the spec's resolution order: the reference itself when it
is an absolute path that exists. -/
def candidate1 (fs : FS) (file_path : String) : Option String :=
  if isAbsolute file_path && fs.pathExists file_path then some file_path else none

/-- Strategy 2: rootDir/reference, when a root directory was configured. -/
def candidate2 (fs : FS) (root_dir : Option String) (file_path : String) : Option String :=
  root_dir.bind (fun rd =>
    if fs.pathExists (joinPath rd file_path) then some (joinPath rd file_path) else none)

/-- Strategy 3: canvasDir/reference. -/
def candidate3 (fs : FS) (canvas_dir : String) (file_path : String) : Option String :=
  if fs.pathExists (joinPath canvas_dir file_path) then some (joinPath canvas_dir file_path)
  else none

/-- Strategy 4: rootDir/basename(reference), when a root directory was
configured. -/
def candidate4 (fs : FS) (root_dir : Option String) (file_path : String) : Option String :=
  root_dir.bind (fun rd =>
    if fs.pathExists (joinPath rd (basename file_path)) then
      some (joinPath rd (basename file_path))
    else none)

/-- Strategy 5: first match of a recursive search for basename(reference)
under rootDir. -/
def candidate5 (fs : FS) (root_dir : Option String) (file_path : String) : Option String :=
  root_dir.bind (fun rd => fs.rglobFirst rd (basename file_path))

/-- Strategy 6: canvasDir/basename(reference). -/
def candidate6 (fs : FS) (canvas_dir : String) (file_path : String) : Option String :=
  if fs.pathExists (joinPath canvas_dir (basename file_path)) then
    some (joinPath canvas_dir (basename file_path))
  else none

/-- Strategy 7: first match of a recursive search for basename(reference)
under canvasDir. -/
def candidate7 (fs : FS) (canvas_dir : String) (file_path : String) : Option String :=
  fs.rglobFirst canvas_dir (basename file_path)

/-- First defined value of an ordered list of optional results. -/
def firstSome : List (Option String) → Option String
  | [] => none
  | none :: rest => firstSome rest
  | some x :: _ => some x

/-- The spec's resolution policy: the seven strategies evaluated in priority
order, first match wins. -/
def resolveSpecOrder (fs : FS) (canvas_dir : String) (root_dir : Option String)
    (file_path : String) : Option String :=
  firstSome
    [candidate1 fs file_path,
     candidate2 fs root_dir file_path,
     candidate3 fs canvas_dir file_path,
     candidate4 fs root_dir file_path,
     candidate5 fs root_dir file_path,
     candidate6 fs canvas_dir file_path,
     candidate7 fs canvas_dir file_path]

/-- The 64 digits of the standard base64 alphabet, in value order. -/
def b64chars : List Char :=
  "ABCDEFGHIJKLMNOPQRSTUVWXYZabcdefghijklmnopqrstuvwxyz0123456789+/".toList

/-- Digit character for a 6-bit value. -/
def b64char (n : Nat) : Char := b64chars.getD n 'A'

/-- Value of a base64 digit character. -/
def b64value (c : Char) : Nat := b64chars.indexOf c

/-- Standard base64 of a byte sequence, as Python's base64.b64encode produces
it (the stdlib call made by file_to_data_url): three bytes become four
digits, a trailing group of one or two bytes is padded with one or two
equals signs. -/
def b64encode : List Nat → List Char
  | [] => []
  | [a] => [b64char (a / 4), b64char (a % 4 * 16), '=', '=']
  | [a, b] => [b64char (a / 4), b64char (a % 4 * 16 + b / 16), b64char (b % 16 * 4), '=']
  | a :: b :: c :: rest =>
    b64char (a / 4) :: b64char (a % 4 * 16 + b / 16) ::
    b64char (b % 16 * 4 + c / 64) :: b64char (c % 64) :: b64encode rest

/-- Modelled from the spec: standard base64 decoding (the reversible text
encoding's inverse, named by the round-trip property; the decoder itself is
not part of src/).  Four digits yield three bytes; a third or fourth padding
character ends the input with one or two bytes. -/
def b64decode : List Char → List Nat
  | c1 :: c2 :: c3 :: c4 :: rest =>
    if c3 = '=' then [b64value c1 * 4 + b64value c2 / 16]
    else if c4 = '=' then
      [b64value c1 * 4 + b64value c2 / 16,
       b64value c2 % 16 * 16 + b64value c3 / 4]
    else
      (b64value c1 * 4 + b64value c2 / 16) ::
      (b64value c2 % 16 * 16 + b64value c3 / 4) ::
      (b64value c3 % 4 * 64 + b64value c4) ::
      b64decode rest
  | _ => []

/-- The fixed extension-to-MIME table of file_to_data_url. -/
def mime_types (suffix : String) : Option String :=
  if suffix = ".gif" then some "image/gif"
  else if suffix = ".png" then some "image/png"
  else if suffix = ".jpg" then some "image/jpeg"
  else if suffix = ".jpeg" then some "image/jpeg"
  else if suffix = ".svg" then some "image/svg+xml"
  else none

/-- MIME type for a resolved path: the table applied to the lower-cased
extension, a generic binary type for unknown extensions. -/
def mime_type_for (p : String) : String :=
  (mime_types (pathSuffix p).toLower).getD "application/octet-stream"

/-- CanvasConverter.file_to_data_url (lines 90-119): resolve the reference,
read the bytes, encode them into a data URL.  The first component is the
returned string (empty on failure, as in the source), the second the
messages printed to stderr. -/
def file_to_data_url (fs : FS) (cfg : Config) (file_path : String) : String × List String :=
  match resolve_file_path fs cfg.canvas_dir cfg.root_dir file_path with
  | none => ("", ["Warning: Could not find file: " ++ file_path])
  | some resolved_path =>
    match fs.read resolved_path with
    | none => ("", ["Error reading file " ++ resolved_path])
    | some data =>
      ("data:" ++ mime_type_for resolved_path ++ ";base64," ++ String.mk (b64encode data), [])

/-- The six-entry preset palette PRESET_COLORS. -/
def PRESET_COLORS (c : String) : Option String :=
  if c = "1" then some "#e06c75"
  else if c = "2" then some "#d19a66"
  else if c = "3" then some "#e5c07b"
  else if c = "4" then some "#98c379"
  else if c = "5" then some "#61afef"
  else if c = "6" then some "#c678dd"
  else none

/-- CanvasConverter.get_color (lines 121-131): empty for a missing or empty
value, the palette entry for a preset key, the value verbatim otherwise. -/
def get_color (color_value : Option String) : String :=
  match color_value with
  | none => ""
  | some c => if c = "" then "" else (PRESET_COLORS c).getD c

/-- A node record as load_canvas keeps it: the required fields of the JSON
object plus the optional kind-specific fields (absent keys are none). -/
structure Node where
  id : String
  type : String
  x : Int
  y : Int
  width : Int
  height : Int
  color : Option String := none
  text : Option String := none
  file : Option String := none
  url : Option String := none
  label : Option String := none
  deriving DecidableEq

/-- An edge record as load_canvas keeps it. -/
structure Edge where
  fromNode : String
  toNode : String
  fromSide : Option String := none
  toSide : Option String := none
  toEnd : Option String := none
  deriving DecidableEq

/-- The local x of generate_node_html: x = node['x'] - offset_x. -/
def node_render_x (node : Node) (offset_x : Int) : Int := node.x - offset_x

/-- The local y of generate_node_html: y = node['y'] - offset_y. -/
def node_render_y (node : Node) (offset_y : Int) : Int := node.y - offset_y

/-- The style string generate_node_html builds from the translated position,
the size and the optional border color. -/
def node_style (x y width height : Int) (color : String) : String :=
  let style := "left: " ++ toString x ++ "px; top: " ++ toString y ++ "px; width: " ++
    toString width ++ "px; height: " ++ toString height ++ "px;"
  if color = "" then style else style ++ " border-color: " ++ color ++ ";"

/-- CanvasConverter.generate_node_html (lines 710-746): dispatch on the type
tag, producing the node's markup fragment; an unknown tag falls through to
the empty string. -/
def generate_node_html (fs : FS) (cfg : Config) (node : Node)
    (offset_x offset_y : Int) : String :=
  let x := node_render_x node offset_x
  let y := node_render_y node offset_y
  let color := get_color node.color
  let style := node_style x y node.width node.height color
  if node.type = "text" then
    let text := node.text.getD ""
    let text_html := text.replace "\n" "<br>"
    "<div class=\"node node-text\" style=\"" ++ style ++ "\">" ++ text_html ++ "</div>"
  else if node.type = "file" then
    let file_path := node.file.getD ""
    let data_url := (file_to_data_url fs cfg file_path).1
    if data_url = "" then
      "<div class=\"node node-text\" style=\"" ++ style ++ "\">File not found: " ++
        file_path ++ "</div>"
    else
      "<div class=\"node node-file\" style=\"" ++ style ++ "\"><img src=\"" ++ data_url ++
        "\" alt=\"" ++ file_path ++ "\"></div>"
  else if node.type = "link" then
    let url := node.url.getD ""
    "<a href=\"" ++ url ++ "\" class=\"node node-link\" style=\"" ++ style ++
      "\" target=\"_blank\">" ++ url ++ "</a>"
  else if node.type = "group" then
    let label := node.label.getD ""
    "<div class=\"node node-group\" style=\"" ++ style ++ "\"><div>" ++ label ++ "</div></div>"
  else ""

/-- CanvasConverter.calculate_bounds (lines 133-150): the fixed default box
for an empty node list, otherwise coordinate minima and extent maxima padded
by 50 on all sides, returned as (min_x, min_y, max_x - min_x, max_y - min_y).
Python's min and max over the node generator are the left folds below. -/
def calculate_bounds : List Node → Int × Int × Int × Int
  | [] => (0, 0, 800, 600)
  | n :: ns =>
    let min_x := ns.foldl (fun a m => min a m.x) n.x
    let min_y := ns.foldl (fun a m => min a m.y) n.y
    let max_x := ns.foldl (fun a m => max a (m.x + m.width)) (n.x + n.width)
    let max_y := ns.foldl (fun a m => max a (m.y + m.height)) (n.y + n.height)
    (min_x - 50, min_y - 50, (max_x + 50) - (min_x - 50), (max_y + 50) - (min_y - 50))

/-- One entry of the serialized node payload: the dict generate_html builds
for each node (lines 164-170). -/
structure NodeData where
  id : String
  x : Int
  y : Int
  width : Int
  height : Int
  deriving DecidableEq

/-- The loaded document: the node and edge lists load_canvas stores. -/
structure CanvasDocument where
  nodes : List Node
  edges : List Edge
  deriving DecidableEq

/-- The variable parts of the HTML document generate_html emits: the
bounding box spliced into the style block, the rendered node fragments
joined into the nodes layer, and the two JSON payloads of the script block.
The fixed shell around them carries no document data. -/
structure Artifact where
  min_x : Int
  min_y : Int
  width : Int
  height : Int
  nodes_html : List String
  nodes_data : List NodeData
  edges_data : List Edge

/-- CanvasConverter.generate_html (lines 152-170 for its computations):
bounds once, a fragment per node in input order, the node payload with
translated coordinates, and the edge list serialized as loaded. -/
def generate_html (fs : FS) (cfg : Config) (doc : CanvasDocument) : Artifact :=
  let b := calculate_bounds doc.nodes
  { min_x := b.1
    min_y := b.2.1
    width := b.2.2.1
    height := b.2.2.2
    nodes_html := doc.nodes.map (fun node => generate_node_html fs cfg node b.1 b.2.1)
    nodes_data := doc.nodes.map (fun node =>
      { id := node.id, x := node.x - b.1, y := node.y - b.2.1,
        width := node.width, height := node.height })
    edges_data := doc.edges }

/-- The converter's mutable state: the node and edge lists loaded from the
document (self.nodes, self.edges). -/
structure ConverterState where
  nodes : List Node
  edges : List Edge
  deriving DecidableEq

/-- State-passing embedding of generate_html.  The Python method reads
self.nodes and self.edges but assigns no attribute and no key of any node or
edge record: every computed coordinate goes into fresh locals and fresh
dicts (lines 162-170 build new lists), so the post-state is the pre-state. -/
def generate_html_run (fs : FS) (cfg : Config) (s : ConverterState) :
    Artifact × ConverterState :=
  (generate_html fs cfg { nodes := s.nodes, edges := s.edges }, s)

/-- The outcome of parsing the input document: none when open or json.load
raises (DocumentUnreadable), otherwise the optional top-level keys. -/
structure ParsedDoc where
  nodes : Option (List Node) := none
  edges : Option (List Edge) := none
  deriving DecidableEq

/-- CanvasConverter.load_canvas (lines 37-48): on success the node and edge
lists default to [] when the keys are absent; on failure an error is printed
and the document stays unloaded. -/
def load_canvas (parsed : Option ParsedDoc) : Option CanvasDocument × List String :=
  match parsed with
  | none => (none, ["Error loading canvas file"])
  | some pd => (some { nodes := pd.nodes.getD [], edges := pd.edges.getD [] }, [])

/-- What convert produces: the returned flag, the errors printed, and the
documents written to the output path. -/
structure ConvertOutcome where
  success : Bool
  errors : List String
  written : List Artifact

/-- CanvasConverter.convert (lines 748-762): a failed load returns False
before any write is attempted; otherwise the document is generated and the
single write either succeeds or reports an error.  write_ok models whether
opening and writing the output path succeeds. -/
def convert (fs : FS) (cfg : Config) (parsed : Option ParsedDoc)
    (write_ok : Bool) : ConvertOutcome :=
  match load_canvas parsed with
  | (none, errs) => { success := false, errors := errs, written := [] }
  | (some doc, _) =>
    let html := generate_html fs cfg doc
    if write_ok then { success := true, errors := [], written := [html] }
    else { success := false, errors := ["Error writing output file"], written := [] }

/-- The process outcome of main (line 794): sys.exit(0 if success else 1). -/
def main_exit (fs : FS) (cfg : Config) (parsed : Option ParsedDoc)
    (write_ok : Bool) : Nat :=
  if (convert fs cfg parsed write_ok).success then 0 else 1

/-- A node as the embedded viewer script sees it: a member of the nodes
payload, its numbers treated as JS numbers, idealised as reals. -/
structure JSNode where
  x : ℝ
  y : ℝ
  width : ℝ
  height : ℝ

/-- The JS expression v || d for an optional string field: the default when
the field is absent or the empty string (both falsy). -/
def jsOr (v : Option String) (d : String) : String :=
  match v with
  | none => d
  | some s => if s = "" then d else s

/-- getConnectionPoint of the embedded viewer script (lines 429-447): the
anchor point of a node for a side, the centre for any other string. -/
noncomputable def getConnectionPoint (node : JSNode) (side : String) : ℝ × ℝ :=
  if side = "top" then (node.x + node.width / 2, node.y)
  else if side = "right" then (node.x + node.width, node.y + node.height / 2)
  else if side = "bottom" then (node.x + node.width / 2, node.y + node.height)
  else if side = "left" then (node.x, node.y + node.height / 2)
  else (node.x + node.width / 2, node.y + node.height / 2)

/-- The two switch statements of generateEdgePath computing (cp1x, cp1y) and
(cp2x, cp2y) (lines 475-511) displace the anchor by the offset identically,
side by side; both are this one function.  A side outside the four cases
leaves the control point undefined (the switches have no default), modelled
as none. -/
def edgeControl (anchor : ℝ × ℝ) (offset : ℝ) (side : String) : Option (ℝ × ℝ) :=
  if side = "top" then some (anchor.1, anchor.2 - offset)
  else if side = "right" then some (anchor.1 + offset, anchor.2)
  else if side = "bottom" then some (anchor.1, anchor.2 + offset)
  else if side = "left" then some (anchor.1 - offset, anchor.2)
  else none

/-- The cubic Bezier curve whose path string generateEdgePath returns:
M p0 C c1 c2 p3. -/
structure BezierCurve where
  p0 : ℝ × ℝ
  c1 : Option (ℝ × ℝ)
  c2 : Option (ℝ × ℝ)
  p3 : ℝ × ℝ

/-- generateEdgePath of the embedded viewer script (lines 450-515): none
models the empty path returned when either endpoint id is missing from the
node map; otherwise the emitted curve, with sides defaulted by ||, the
anchors from getConnectionPoint, and the control points displaced by
offset = min(distance / 2, 100). -/
noncomputable def generateEdgePath (nodeMap : String → Option JSNode)
    (edge : Edge) : Option BezierCurve :=
  match nodeMap edge.fromNode, nodeMap edge.toNode with
  | some fromNode, some toNode =>
    let fromSide := jsOr edge.fromSide "right"
    let toSide := jsOr edge.toSide "left"
    let start := getConnectionPoint fromNode fromSide
    let stop := getConnectionPoint toNode toSide
    let dx := stop.1 - start.1
    let dy := stop.2 - start.2
    let distance := Real.sqrt (dx * dx + dy * dy)
    let offset := min (distance / 2) 100
    some { p0 := start
           c1 := edgeControl start offset fromSide
           c2 := edgeControl stop offset toSide
           p3 := stop }
  | _, _ => none

/-- A filesystem on which every query fails: no path exists, no recursive
search matches, no file can be read. -/
def fsEmpty : FS :=
  { pathExists := fun _ => false, rglobFirst := fun _ _ => none, read := fun _ => none }

/-- A filesystem on which every path exists and every file reads as the
three bytes 77, 0, 255. -/
def fsThreeBytes : FS :=
  { pathExists := fun _ => true, rglobFirst := fun _ _ => none,
    read := fun _ => some [77, 0, 255] }

/-- A configuration with canvas directory "canvas" and no root directory. -/
def cfg0 : Config := { canvas_dir := "canvas", root_dir := none }

/-- The single text node of the spec's scenario. -/
def exampleTextNode : Node :=
  { id := "a", type := "text", x := 0, y := 0, width := 100, height := 50,
    text := some "hi\nthere" }

/-- A file node whose reference cannot be resolved on fsEmpty. -/
def exampleFileNode : Node :=
  { id := "f", type := "file", x := 10, y := 20, width := 30, height := 40,
    file := some "img.png" }

/-- A node whose declared type is none of the four rendered kinds. -/
def exampleWidgetNode : Node :=
  { id := "w", type := "widget", x := 1, y := 2, width := 3, height := 4 }

/-- Viewer node map of the counterexample: node A is the box (0,0) 100 by 50,
node B the box (100,85) 40 by 30, so A's right anchor (100,25) and B's left
anchor (100,100) are vertically aligned. -/
noncomputable def cexNodeMap : String → Option JSNode := fun id =>
  if id = "A" then some { x := 0, y := 0, width := 100, height := 50 }
  else if id = "B" then some { x := 100, y := 85, width := 40, height := 30 }
  else none

/-- The counterexample edge: A to B with explicit sides right and left. -/
def cexEdge : Edge :=
  { fromNode := "A", toNode := "B", fromSide := some "right", toSide := some "left" }

/-- Viewer node map of the amended claim's witness: A's right anchor is
(100,25) and B's left anchor (103,29), three across and four down. -/
noncomputable def witNodeMap : String → Option JSNode := fun id =>
  if id = "A" then some { x := 0, y := 0, width := 100, height := 50 }
  else if id = "B" then some { x := 103, y := 4, width := 40, height := 50 }
  else none

/-- A left fold of min is at most its initial value. -/
theorem foldl_min_le_init (f : Node → Int) (l : List Node) (init : Int) :
    l.foldl (fun a m => min a (f m)) init ≤ init := by
  induction l generalizing init with
  | nil => exact le_refl _
  | cons x xs ih => exact le_trans (ih _) (min_le_left _ _)

/-- A left fold of min is at most the value at any member. -/
theorem foldl_min_le (f : Node → Int) :
    ∀ (l : List Node) (init : Int) (m : Node), m ∈ l →
      l.foldl (fun a m => min a (f m)) init ≤ f m
  | [], _, _, hm => absurd hm (by simp)
  | x :: xs, init, m, hm => by
    rcases List.mem_cons.1 hm with h | h
    · subst h
      exact le_trans (foldl_min_le_init f xs (min init (f m))) (min_le_right init (f m))
    · exact foldl_min_le f xs (min init (f x)) m h

/-- A left fold of max is at least its initial value. -/
theorem le_foldl_max_init (f : Node → Int) (l : List Node) (init : Int) :
    init ≤ l.foldl (fun a m => max a (f m)) init := by
  induction l generalizing init with
  | nil => exact le_refl _
  | cons x xs ih => exact le_trans (le_max_left _ _) (ih _)

/-- A left fold of max is at least the value at any member. -/
theorem le_foldl_max (f : Node → Int) :
    ∀ (l : List Node) (init : Int) (m : Node), m ∈ l →
      f m ≤ l.foldl (fun a m => max a (f m)) init
  | [], _, _, hm => absurd hm (by simp)
  | x :: xs, init, m, hm => by
    rcases List.mem_cons.1 hm with h | h
    · subst h
      exact le_trans (le_max_right init (f m)) (le_foldl_max_init f xs (max init (f m)))
    · exact le_foldl_max f xs (max init (f x)) m h

/-- A left fold of min is its initial value or is attained at a member. -/
theorem foldl_min_attained (f : Node → Int) (l : List Node) (init : Int) :
    l.foldl (fun a m => min a (f m)) init = init ∨
      ∃ m ∈ l, l.foldl (fun a m => min a (f m)) init = f m := by
  induction l generalizing init with
  | nil => exact Or.inl rfl
  | cons x xs ih =>
    rcases ih (min init (f x)) with h | ⟨m, hm, h⟩
    · rcases min_cases init (f x) with ⟨he, _⟩ | ⟨he, _⟩
      · exact Or.inl (h.trans he)
      · exact Or.inr ⟨x, List.mem_cons_self x xs, h.trans he⟩
    · exact Or.inr ⟨m, List.mem_cons_of_mem _ hm, h⟩

/-- A left fold of max is its initial value or is attained at a member. -/
theorem foldl_max_attained (f : Node → Int) (l : List Node) (init : Int) :
    l.foldl (fun a m => max a (f m)) init = init ∨
      ∃ m ∈ l, l.foldl (fun a m => max a (f m)) init = f m := by
  induction l generalizing init with
  | nil => exact Or.inl rfl
  | cons x xs ih =>
    rcases ih (max init (f x)) with h | ⟨m, hm, h⟩
    · rcases max_cases init (f x) with ⟨he, _⟩ | ⟨he, _⟩
      · exact Or.inl (h.trans he)
      · exact Or.inr ⟨x, List.mem_cons_self x xs, h.trans he⟩
    · exact Or.inr ⟨m, List.mem_cons_of_mem _ hm, h⟩

/-- Every member of a nonempty node list lies within the padded bounding
box: the box's minima are at least 50 below the member's position and its
extent reaches at least 50 beyond the member's far corner. -/
theorem bounds_le (hd : Node) (tl : List Node) (m : Node) (hm : m ∈ hd :: tl) :
    (calculate_bounds (hd :: tl)).1 ≤ m.x - 50 ∧
    (calculate_bounds (hd :: tl)).2.1 ≤ m.y - 50 ∧
    m.x + m.width + 50 ≤ (calculate_bounds (hd :: tl)).1 + (calculate_bounds (hd :: tl)).2.2.1 ∧
    m.y + m.height + 50 ≤ (calculate_bounds (hd :: tl)).2.1 + (calculate_bounds (hd :: tl)).2.2.2 := by
  have hx : tl.foldl (fun a m => min a m.x) hd.x ≤ m.x := by
    rcases List.mem_cons.1 hm with h | h
    · subst h; exact foldl_min_le_init _ _ _
    · exact foldl_min_le _ _ _ _ h
  have hy : tl.foldl (fun a m => min a m.y) hd.y ≤ m.y := by
    rcases List.mem_cons.1 hm with h | h
    · subst h; exact foldl_min_le_init _ _ _
    · exact foldl_min_le _ _ _ _ h
  have hX : m.x + m.width ≤ tl.foldl (fun a m => max a (m.x + m.width)) (hd.x + hd.width) := by
    rcases List.mem_cons.1 hm with h | h
    · subst h; exact le_foldl_max_init _ _ _
    · exact le_foldl_max _ _ _ _ h
  have hY : m.y + m.height ≤ tl.foldl (fun a m => max a (m.y + m.height)) (hd.y + hd.height) := by
    rcases List.mem_cons.1 hm with h | h
    · subst h; exact le_foldl_max_init _ _ _
    · exact le_foldl_max _ _ _ _ h
  simp only [calculate_bounds]
  omega

/-- A data URL is never the empty string. -/
theorem data_url_ne_empty (m t : String) : "data:" ++ m ++ ";base64," ++ t ≠ "" := by
  intro h
  have h2 := congrArg String.length h
  rw [String.length_append, String.length_append, String.length_append] at h2
  have h3 : String.length "data:" = 5 := rfl
  have h4 : String.length ";base64," = 8 := rfl
  have h5 : String.length "" = 0 := rfl
  omega

/-- Decoding a base64 digit made from a 6-bit value gives the value back. -/
theorem b64value_b64char : ∀ v < 64, b64value (b64char v) = v := by decide

/-- A base64 digit is never the padding character. -/
theorem b64char_ne_padding : ∀ v < 64, b64char v ≠ '=' := by decide

/-- Base64 round trip: decoding the encoding of any byte sequence gives the
sequence back. -/
theorem b64_roundtrip : ∀ (l : List Nat), (∀ b ∈ l, b < 256) → b64decode (b64encode l) = l
  | [], _ => rfl
  | [a], h => by
    have ha : a < 256 := h a (by simp)
    simp only [b64encode, b64decode, if_true]
    rw [b64value_b64char _ (by omega), b64value_b64char _ (by omega)]
    simp only [List.cons.injEq]
    exact ⟨by omega, trivial⟩
  | [a, b], h => by
    have ha : a < 256 := h a (by simp)
    have hb : b < 256 := h b (by simp)
    simp only [b64encode, b64decode, if_true]
    rw [if_neg (b64char_ne_padding (b % 16 * 4) (by omega)),
      b64value_b64char _ (by omega), b64value_b64char _ (by omega),
      b64value_b64char _ (by omega)]
    simp only [List.cons.injEq]
    exact ⟨by omega, by omega, trivial⟩
  | a :: b :: c :: rest, h => by
    have ha : a < 256 := h a (by simp)
    have hb : b < 256 := h b (by simp)
    have hc : c < 256 := h c (by simp)
    have hrest := b64_roundtrip rest (fun x hx => h x (by simp [hx]))
    simp only [b64encode, b64decode]
    rw [if_neg (b64char_ne_padding (b % 16 * 4 + c / 64) (by omega)),
      if_neg (b64char_ne_padding (c % 64) (by omega)),
      b64value_b64char _ (by omega), b64value_b64char _ (by omega),
      b64value_b64char _ (by omega), b64value_b64char _ (by omega), hrest]
    simp only [List.cons.injEq]
    exact ⟨by omega, by omega, by omega, trivial⟩

/-- C1: for every reference string, resolve_file_path tries the candidate
locations in exactly the short-circuit order 1. absolute reference that
exists, 2. rootDir/reference (root configured), 3. canvasDir/reference,
4. rootDir/basename (root configured), 5. first recursive match under
rootDir, 6. canvasDir/basename, 7. first recursive match under canvasDir,
and returns the first that exists, none when all seven fail. -/
theorem resolve_file_path_resolution_order (fs : FS) (canvas_dir : String)
    (root_dir : Option String) (file_path : String) :
    resolve_file_path fs canvas_dir root_dir file_path =
      resolveSpecOrder fs canvas_dir root_dir file_path := by
  cases root_dir with
  | none =>
    by_cases h1 : (isAbsolute file_path && fs.pathExists file_path) = true <;>
    by_cases h3 : fs.pathExists (joinPath canvas_dir file_path) = true <;>
    by_cases h6 : fs.pathExists (joinPath canvas_dir (basename file_path)) = true <;>
    cases h7 : fs.rglobFirst canvas_dir (basename file_path) <;>
      simp [resolve_file_path, resolveSpecOrder, candidate1, candidate2, candidate3,
        candidate4, candidate5, candidate6, candidate7, firstSome, h1, h3, h6, h7]
  | some rd =>
    by_cases h1 : (isAbsolute file_path && fs.pathExists file_path) = true <;>
    by_cases h2 : fs.pathExists (joinPath rd file_path) = true <;>
    by_cases h3 : fs.pathExists (joinPath canvas_dir file_path) = true <;>
    by_cases h4 : fs.pathExists (joinPath rd (basename file_path)) = true <;>
    cases h5 : fs.rglobFirst rd (basename file_path) <;>
    by_cases h6 : fs.pathExists (joinPath canvas_dir (basename file_path)) = true <;>
    cases h7 : fs.rglobFirst canvas_dir (basename file_path) <;>
      simp [resolve_file_path, resolveSpecOrder, candidate1, candidate2, candidate3,
        candidate4, candidate5, candidate6, candidate7, firstSome, h1, h2, h3, h4, h5, h6, h7]

/-- C2: calculate_bounds returns the fixed default box (0, 0, 800, 600) on
an empty node list; on any nonempty list it returns (minX - 50, minY - 50,
width, height) where minX and minY are the minima of x and y over the nodes,
maxX and maxY the maxima of x + width and y + height, a padding of 50 is
applied on all sides and width and height are max minus min after padding;
in particular the single node at (0, 0) sized 100 by 50 yields the box
(-50, -50, 200, 150). -/
theorem calculate_bounds_default_min_max_padding :
    calculate_bounds [] = (0, 0, 800, 600) ∧
    (∀ (n : Node) (ns : List Node), ∃ A B C D : Int,
      (∀ m ∈ n :: ns, A ≤ m.x ∧ B ≤ m.y ∧ m.x + m.width ≤ C ∧ m.y + m.height ≤ D) ∧
      (∃ m1 ∈ n :: ns, m1.x = A) ∧
      (∃ m2 ∈ n :: ns, m2.y = B) ∧
      (∃ m3 ∈ n :: ns, m3.x + m3.width = C) ∧
      (∃ m4 ∈ n :: ns, m4.y + m4.height = D) ∧
      calculate_bounds (n :: ns) =
        (A - 50, B - 50, (C + 50) - (A - 50), (D + 50) - (B - 50))) ∧
    calculate_bounds [exampleTextNode] = (-50, -50, 200, 150) := by
  refine ⟨rfl, ?_, rfl⟩
  intro n ns
  refine ⟨ns.foldl (fun a m => min a m.x) n.x,
          ns.foldl (fun a m => min a m.y) n.y,
          ns.foldl (fun a m => max a (m.x + m.width)) (n.x + n.width),
          ns.foldl (fun a m => max a (m.y + m.height)) (n.y + n.height),
          ?_, ?_, ?_, ?_, ?_, ?_⟩
  · intro m hm
    refine ⟨?_, ?_, ?_, ?_⟩ <;> rcases List.mem_cons.1 hm with h | h
    · subst h; exact foldl_min_le_init _ _ _
    · exact foldl_min_le _ _ _ _ h
    · subst h; exact foldl_min_le_init _ _ _
    · exact foldl_min_le _ _ _ _ h
    · subst h; exact le_foldl_max_init _ _ _
    · exact le_foldl_max _ _ _ _ h
    · subst h; exact le_foldl_max_init _ _ _
    · exact le_foldl_max _ _ _ _ h
  · rcases foldl_min_attained (fun m => m.x) ns n.x with h | ⟨m, hm, h⟩
    · exact ⟨n, List.mem_cons_self n ns, h.symm⟩
    · exact ⟨m, List.mem_cons_of_mem _ hm, h.symm⟩
  · rcases foldl_min_attained (fun m => m.y) ns n.y with h | ⟨m, hm, h⟩
    · exact ⟨n, List.mem_cons_self n ns, h.symm⟩
    · exact ⟨m, List.mem_cons_of_mem _ hm, h.symm⟩
  · rcases foldl_max_attained (fun m => m.x + m.width) ns (n.x + n.width) with h | ⟨m, hm, h⟩
    · exact ⟨n, List.mem_cons_self n ns, h.symm⟩
    · exact ⟨m, List.mem_cons_of_mem _ hm, h.symm⟩
  · rcases foldl_max_attained (fun m => m.y + m.height) ns (n.y + n.height) with h | ⟨m, hm, h⟩
    · exact ⟨n, List.mem_cons_self n ns, h.symm⟩
    · exact ⟨m, List.mem_cons_of_mem _ hm, h.symm⟩
  · rfl

/-- C3: for every nonempty node list (given by a member), every node's
normalized render position is at least (0,0) and its normalized extent at
most the bounding box's width and height; the same holds for every entry of
the serialized node payload of generate_html. -/
theorem normalized_layout_within_bounds (fs : FS) (cfg : Config)
    (nodes : List Node) (edges : List Edge) (n : Node) (hmem : n ∈ nodes) :
    (0 ≤ node_render_x n (calculate_bounds nodes).1 ∧
     0 ≤ node_render_y n (calculate_bounds nodes).2.1 ∧
     node_render_x n (calculate_bounds nodes).1 + n.width ≤ (calculate_bounds nodes).2.2.1 ∧
     node_render_y n (calculate_bounds nodes).2.1 + n.height ≤ (calculate_bounds nodes).2.2.2) ∧
    (∀ e ∈ (generate_html fs cfg { nodes := nodes, edges := edges }).nodes_data,
       0 ≤ e.x ∧ 0 ≤ e.y ∧
       e.x + e.width ≤ (generate_html fs cfg { nodes := nodes, edges := edges }).width ∧
       e.y + e.height ≤ (generate_html fs cfg { nodes := nodes, edges := edges }).height) := by
  cases nodes with
  | nil => cases hmem
  | cons hd tl =>
    constructor
    · have h := bounds_le hd tl n hmem
      simp only [node_render_x, node_render_y]
      omega
    · intro e he
      simp only [generate_html, List.mem_map] at he
      obtain ⟨m, hm, rfl⟩ := he
      have h := bounds_le hd tl m hm
      simp only [generate_html]
      constructor
      · omega
      constructor
      · omega
      constructor
      · omega
      · omega

/-- C3 witness: the invariant instantiated at the one-node document of the
spec's scenario. -/
theorem normalized_layout_within_bounds_witness :
    exampleTextNode ∈ [exampleTextNode] ∧
    ((0 ≤ node_render_x exampleTextNode (calculate_bounds [exampleTextNode]).1 ∧
      0 ≤ node_render_y exampleTextNode (calculate_bounds [exampleTextNode]).2.1 ∧
      node_render_x exampleTextNode (calculate_bounds [exampleTextNode]).1 +
        exampleTextNode.width ≤ (calculate_bounds [exampleTextNode]).2.2.1 ∧
      node_render_y exampleTextNode (calculate_bounds [exampleTextNode]).2.1 +
        exampleTextNode.height ≤ (calculate_bounds [exampleTextNode]).2.2.2) ∧
     (∀ e ∈ (generate_html fsEmpty cfg0 { nodes := [exampleTextNode], edges := [] }).nodes_data,
        0 ≤ e.x ∧ 0 ≤ e.y ∧
        e.x + e.width ≤
          (generate_html fsEmpty cfg0 { nodes := [exampleTextNode], edges := [] }).width ∧
        e.y + e.height ≤
          (generate_html fsEmpty cfg0 { nodes := [exampleTextNode], edges := [] }).height)) :=
  ⟨List.mem_singleton.2 rfl,
   normalized_layout_within_bounds fsEmpty cfg0 [exampleTextNode] [] exampleTextNode
     (List.mem_singleton.2 rfl)⟩

/-- C4: a file node whose reference resolves to nothing, or whose resolved
path cannot be read, renders as the text-style fragment "File not found:
reference" with a warning reported, and the document is still assembled with
that fragment in place; a reference that resolves and reads renders as an
image fragment filling the node box with the encoded data URL. -/
theorem file_node_fragment_fallback_or_image (fs : FS) (cfg : Config) (node : Node)
    (offset_x offset_y : Int) (htype : node.type = "file") :
    ((resolve_file_path fs cfg.canvas_dir cfg.root_dir (node.file.getD "") = none ∨
      (∃ p, resolve_file_path fs cfg.canvas_dir cfg.root_dir (node.file.getD "") = some p ∧
        fs.read p = none)) →
      (generate_node_html fs cfg node offset_x offset_y =
        "<div class=\"node node-text\" style=\"" ++
          node_style (node_render_x node offset_x) (node_render_y node offset_y)
            node.width node.height (get_color node.color) ++
          "\">File not found: " ++ node.file.getD "" ++ "</div>" ∧
       (file_to_data_url fs cfg (node.file.getD "")).2 ≠ [])) ∧
    (∀ (p : String) (data : List Nat),
       resolve_file_path fs cfg.canvas_dir cfg.root_dir (node.file.getD "") = some p →
       fs.read p = some data →
       generate_node_html fs cfg node offset_x offset_y =
         "<div class=\"node node-file\" style=\"" ++
           node_style (node_render_x node offset_x) (node_render_y node offset_y)
             node.width node.height (get_color node.color) ++
           "\"><img src=\"" ++
           ("data:" ++ mime_type_for p ++ ";base64," ++ String.mk (b64encode data)) ++
           "\" alt=\"" ++ node.file.getD "" ++ "\"></div>") ∧
    (∀ (ns : List Node) (es : List Edge), node ∈ ns →
       generate_node_html fs cfg node (calculate_bounds ns).1 (calculate_bounds ns).2.1 ∈
         (generate_html fs cfg { nodes := ns, edges := es }).nodes_html) := by
  refine ⟨?_, ?_, ?_⟩
  · intro hfail
    have hdu : (file_to_data_url fs cfg (node.file.getD "")).1 = "" ∧
        (file_to_data_url fs cfg (node.file.getD "")).2 ≠ [] := by
      rcases hfail with h | ⟨p, hp, hr⟩
      · simp [file_to_data_url, h]
      · simp [file_to_data_url, hp, hr]
    refine ⟨?_, hdu.2⟩
    simp only [generate_node_html, htype, if_true]
    rw [if_pos hdu.1, if_neg (show ¬ ("file" : String) = "text" by decide)]
  · intro p data hp hr
    have hurl : (file_to_data_url fs cfg (node.file.getD "")).1 =
        "data:" ++ mime_type_for p ++ ";base64," ++ String.mk (b64encode data) := by
      simp [file_to_data_url, hp, hr]
    simp only [generate_node_html, htype, if_true]
    rw [hurl,
      if_neg (data_url_ne_empty (mime_type_for p) (String.mk (b64encode data))),
      if_neg (show ¬ ("file" : String) = "text" by decide)]
  · intro ns es hns
    simp only [generate_html]
    exact List.mem_map_of_mem _ hns

/-- C4 witness: the unresolvable file node exampleFileNode on the empty
filesystem. -/
theorem file_node_fragment_witness :
    exampleFileNode.type = "file" ∧
    ((resolve_file_path fsEmpty cfg0.canvas_dir cfg0.root_dir (exampleFileNode.file.getD "") = none ∨
      (∃ p, resolve_file_path fsEmpty cfg0.canvas_dir cfg0.root_dir (exampleFileNode.file.getD "") = some p ∧
        fsEmpty.read p = none)) →
      (generate_node_html fsEmpty cfg0 exampleFileNode 0 0 =
        "<div class=\"node node-text\" style=\"" ++
          node_style (node_render_x exampleFileNode 0) (node_render_y exampleFileNode 0)
            exampleFileNode.width exampleFileNode.height (get_color exampleFileNode.color) ++
          "\">File not found: " ++ exampleFileNode.file.getD "" ++ "</div>" ∧
       (file_to_data_url fsEmpty cfg0 (exampleFileNode.file.getD "")).2 ≠ [])) ∧
    (resolve_file_path fsEmpty cfg0.canvas_dir cfg0.root_dir (exampleFileNode.file.getD "") = none) :=
  ⟨rfl,
   (file_node_fragment_fallback_or_image fsEmpty cfg0 exampleFileNode 0 0 rfl).1,
   by decide⟩

/-- C5: the serialized node payload has one entry per node, in input order,
each entry exactly the node's id, position translated by the bounding-box
minima, and untranslated size; the serialized edge list is the loaded edge
list verbatim, element for element. -/
theorem viewer_payload_preserves_nodes_and_edges (fs : FS) (cfg : Config)
    (nodes : List Node) (edges : List Edge) :
    (generate_html fs cfg { nodes := nodes, edges := edges }).nodes_data.length =
      nodes.length ∧
    (∀ i : Nat, (generate_html fs cfg { nodes := nodes, edges := edges }).nodes_data[i]? =
      nodes[i]?.map (fun node =>
        { id := node.id, x := node.x - (calculate_bounds nodes).1,
          y := node.y - (calculate_bounds nodes).2.1,
          width := node.width, height := node.height })) ∧
    (generate_html fs cfg { nodes := nodes, edges := edges }).edges_data = edges := by
  refine ⟨by simp [generate_html], ?_, rfl⟩
  intro i
  simp [generate_html]

/-- C7: the inline encoding of a resolved and readable asset is lossless:
the emitted value is the data URL of the base64 encoding of the file's
bytes, and decoding that encoding reproduces the bytes exactly, for every
byte sequence. -/
theorem inline_encoding_lossless (fs : FS) (cfg : Config) (file_path p : String)
    (data : List Nat)
    (hres : resolve_file_path fs cfg.canvas_dir cfg.root_dir file_path = some p)
    (hread : fs.read p = some data)
    (hbytes : ∀ b ∈ data, b < 256) :
    (file_to_data_url fs cfg file_path).1 =
      "data:" ++ mime_type_for p ++ ";base64," ++ String.mk (b64encode data) ∧
    b64decode (b64encode data) = data :=
  ⟨by simp [file_to_data_url, hres, hread], b64_roundtrip data hbytes⟩

/-- C7 witness: the bytes 77, 0, 255 read from a file every probe finds. -/
theorem inline_encoding_lossless_witness :
    resolve_file_path fsThreeBytes cfg0.canvas_dir cfg0.root_dir "a.png" =
      some "canvas/a.png" ∧
    fsThreeBytes.read "canvas/a.png" = some [77, 0, 255] ∧
    ((file_to_data_url fsThreeBytes cfg0 "a.png").1 =
      "data:" ++ mime_type_for "canvas/a.png" ++ ";base64," ++
        String.mk (b64encode [77, 0, 255]) ∧
     b64decode (b64encode [77, 0, 255]) = [77, 0, 255]) :=
  ⟨by decide, rfl,
   inline_encoding_lossless fsThreeBytes cfg0 "a.png" "canvas/a.png" [77, 0, 255]
     (by decide) rfl (by decide)⟩

/-- C8: when the input document cannot be opened or parsed, convert fails
before any write: the outcome is failure, nothing is written, the load error
is reported, and the process exit status is nonzero. -/
theorem convert_aborts_on_unreadable_document (fs : FS) (cfg : Config)
    (parsed : Option ParsedDoc) (write_ok : Bool) (hp : parsed = none) :
    (convert fs cfg parsed write_ok).success = false ∧
    (convert fs cfg parsed write_ok).written = [] ∧
    (convert fs cfg parsed write_ok).errors = ["Error loading canvas file"] ∧
    main_exit fs cfg parsed write_ok = 1 := by
  subst hp
  exact ⟨rfl, rfl, rfl, rfl⟩

/-- C8 witness: the unreadable document on a concrete environment. -/
theorem convert_aborts_on_unreadable_document_witness :
    (convert fsEmpty cfg0 none true).success = false ∧
    (convert fsEmpty cfg0 none true).written = [] ∧
    (convert fsEmpty cfg0 none true).errors = ["Error loading canvas file"] ∧
    main_exit fsEmpty cfg0 none true = 1 :=
  convert_aborts_on_unreadable_document fsEmpty cfg0 none true rfl

/-- C9: rendering and assembly never mutate the loaded document: the
post-state of generate_html equals the pre-state, node for node and edge for
edge, and the translated coordinates are computed into the fresh payload
entries, not written back into the stored nodes. -/
theorem generate_html_does_not_mutate_document (fs : FS) (cfg : Config)
    (s : ConverterState) :
    (generate_html_run fs cfg s).2 = s ∧
    (generate_html_run fs cfg s).2.nodes = s.nodes ∧
    (generate_html_run fs cfg s).2.edges = s.edges ∧
    (generate_html_run fs cfg s).1.nodes_data =
      s.nodes.map (fun node =>
        { id := node.id,
          x := node.x - (calculate_bounds s.nodes).1,
          y := node.y - (calculate_bounds s.nodes).2.1,
          width := node.width, height := node.height }) :=
  ⟨rfl, rfl, rfl, rfl⟩

/-- C10: a node whose declared type is none of text, file, link and group
contributes the empty fragment and raises no error, yet it still appears in
the serialized payload (translated like every node) and still constrains the
bounding box. -/
theorem unknown_node_type_empty_fragment (fs : FS) (cfg : Config) (node : Node)
    (offset_x offset_y : Int)
    (h1 : node.type ≠ "text") (h2 : node.type ≠ "file")
    (h3 : node.type ≠ "link") (h4 : node.type ≠ "group") :
    generate_node_html fs cfg node offset_x offset_y = "" ∧
    (∀ (ns : List Node) (es : List Edge), node ∈ ns →
      ({ id := node.id, x := node.x - (calculate_bounds ns).1,
         y := node.y - (calculate_bounds ns).2.1,
         width := node.width, height := node.height } : NodeData) ∈
        (generate_html fs cfg { nodes := ns, edges := es }).nodes_data ∧
      (calculate_bounds ns).1 ≤ node.x - 50 ∧
      (calculate_bounds ns).2.1 ≤ node.y - 50 ∧
      node.x + node.width + 50 ≤ (calculate_bounds ns).1 + (calculate_bounds ns).2.2.1 ∧
      node.y + node.height + 50 ≤ (calculate_bounds ns).2.1 + (calculate_bounds ns).2.2.2) := by
  constructor
  · simp [generate_node_html, h1, h2, h3, h4]
  · intro ns es hns
    cases ns with
    | nil => cases hns
    | cons hd tl =>
      have h := bounds_le hd tl node hns
      refine ⟨?_, h.1, h.2.1, h.2.2.1, h.2.2.2⟩
      simp only [generate_html]
      exact List.mem_map_of_mem _ hns

/-- C10 witness: the node of type widget. -/
theorem unknown_node_type_empty_fragment_witness :
    exampleWidgetNode.type ≠ "text" ∧ exampleWidgetNode.type ≠ "file" ∧
    exampleWidgetNode.type ≠ "link" ∧ exampleWidgetNode.type ≠ "group" ∧
    generate_node_html fsEmpty cfg0 exampleWidgetNode 0 0 = "" :=
  ⟨by decide, by decide, by decide, by decide,
   (unknown_node_type_empty_fragment fsEmpty cfg0 exampleWidgetNode 0 0
     (by decide) (by decide) (by decide) (by decide)).1⟩

/-- C6 (amended): for every edge whose two endpoint ids resolve, the emitted
curve starts and ends at the side anchors, uses
offset = min(distance(start, end) / 2, 100) exactly, and each cubic-Bezier
control point is its anchor displaced by the offset along the outward normal
of its side (top up, right across, bottom down, left back); for
fromSide = right and toSide = left the control points lie strictly between
the two anchors along the x-axis whenever 0 < offset < end.x - start.x,
which is not the case in general. -/
theorem edge_curve_control_points (nodeMap : String → Option JSNode)
    (edge : Edge) (fromN toN : JSNode) (fromSide toSide : String)
    (start stop : ℝ × ℝ) (offset : ℝ)
    (hfrom : nodeMap edge.fromNode = some fromN)
    (hto : nodeMap edge.toNode = some toN)
    (hfs : fromSide = jsOr edge.fromSide "right")
    (hts : toSide = jsOr edge.toSide "left")
    (hstart : start = getConnectionPoint fromN fromSide)
    (hstop : stop = getConnectionPoint toN toSide)
    (hoffset : offset = min (Real.sqrt ((stop.1 - start.1) * (stop.1 - start.1) +
        (stop.2 - start.2) * (stop.2 - start.2)) / 2) 100) :
    generateEdgePath nodeMap edge =
      some { p0 := start, c1 := edgeControl start offset fromSide,
             c2 := edgeControl stop offset toSide, p3 := stop } ∧
    (∀ (q : ℝ × ℝ) (off : ℝ),
      edgeControl q off "top" = some (q.1, q.2 - off) ∧
      edgeControl q off "right" = some (q.1 + off, q.2) ∧
      edgeControl q off "bottom" = some (q.1, q.2 + off) ∧
      edgeControl q off "left" = some (q.1 - off, q.2)) ∧
    (fromSide = "right" → toSide = "left" → 0 < offset → offset < stop.1 - start.1 →
      edgeControl start offset fromSide = some (start.1 + offset, start.2) ∧
      edgeControl stop offset toSide = some (stop.1 - offset, stop.2) ∧
      start.1 < start.1 + offset ∧ start.1 + offset < stop.1 ∧
      start.1 < stop.1 - offset ∧ stop.1 - offset < stop.1) := by
  subst hoffset hstart hstop hfs hts
  refine ⟨?_, ?_, ?_⟩
  · simp [generateEdgePath, hfrom, hto]
  · intro q off
    refine ⟨?_, ?_, ?_, ?_⟩ <;> simp [edgeControl]
  · intro hr hl h0 hlt
    rw [hr, hl] at h0 hlt ⊢
    refine ⟨by simp [edgeControl], by simp [edgeControl], by linarith, by linarith,
      by linarith, by linarith⟩

/-- C6 counterexample: node A's right anchor (100, 25) and node B's left
anchor (100, 100) are vertically aligned, the offset is
min(75 / 2, 100) = 37.5, and neither control point x (137.5 and 62.5) lies
strictly between the anchors' x-coordinates, which are both 100. -/
theorem edge_control_points_not_between_counterexample :
    generateEdgePath cexNodeMap cexEdge =
      some { p0 := ((100 : ℝ), 25), c1 := some (100 + 75 / 2, 25),
             c2 := some (100 - 75 / 2, 100), p3 := ((100 : ℝ), 100) } ∧
    ¬ ((100 : ℝ) < 100 + 75 / 2 ∧ (100 : ℝ) + 75 / 2 < 100) ∧
    ¬ ((100 : ℝ) < 100 - 75 / 2 ∧ (100 : ℝ) - 75 / 2 < 100) := by
  refine ⟨?_, fun hcon => absurd hcon.2 (by norm_num),
    fun hcon => absurd hcon.1 (by norm_num)⟩
  simp [generateEdgePath, cexNodeMap, cexEdge, jsOr, getConnectionPoint, edgeControl]
  rw [show ((85:ℝ) + 30 / 2 - 50 / 2) = 75 by norm_num,
    Real.sqrt_mul_self (by norm_num : (0:ℝ) ≤ 75),
    min_eq_left (by norm_num : (75:ℝ) / 2 ≤ 100)]
  norm_num

/-- C6 witness: the amended claim applied to two concrete nodes whose
anchors are three across and four apart, giving distance 5 and offset 5/2. -/
theorem edge_curve_control_points_witness :
    witNodeMap cexEdge.fromNode = some { x := 0, y := 0, width := 100, height := 50 } ∧
    witNodeMap cexEdge.toNode = some { x := 103, y := 4, width := 40, height := 50 } ∧
    generateEdgePath witNodeMap cexEdge =
      some { p0 := ((100 : ℝ), 25),
             c1 := edgeControl ((100 : ℝ), 25) (min (5 / 2) 100) "right",
             c2 := edgeControl ((103 : ℝ), 29) (min (5 / 2) 100) "left",
             p3 := ((103 : ℝ), 29) } := by
  have h := edge_curve_control_points witNodeMap cexEdge
    { x := 0, y := 0, width := 100, height := 50 }
    { x := 103, y := 4, width := 40, height := 50 }
    "right" "left" ((100 : ℝ), 25) ((103 : ℝ), 29) (min (5 / 2) 100)
    rfl rfl (by decide) (by decide)
    (by simp [getConnectionPoint, Prod.ext_iff]; norm_num)
    (by simp [getConnectionPoint, Prod.ext_iff]; norm_num)
    (by rw [show ((((103 : ℝ), (29 : ℝ)).1 - (((100 : ℝ), (25 : ℝ))).1) *
          ((((103 : ℝ), (29 : ℝ))).1 - (((100 : ℝ), (25 : ℝ))).1) +
          ((((103 : ℝ), (29 : ℝ))).2 - (((100 : ℝ), (25 : ℝ))).2) *
          ((((103 : ℝ), (29 : ℝ))).2 - (((100 : ℝ), (25 : ℝ))).2)) = 5 * 5 by norm_num,
        Real.sqrt_mul_self (by norm_num : (0 : ℝ) ≤ 5)])
  exact ⟨rfl, rfl, h.1⟩

end CanvasConverter
